import Mathlib

/-!
Verification of the observability pipeline of this repository
(structured-log aggregator, metric registry exposition, request
interceptor severity classification).

Shallow embedding conventions:

* A parsed structured-log line (`src/monitoring/exporters.py`,
  `_read_structured_logs`) becomes a `LogRecord`.  Only the fields that
  the aggregation code actually reads are modelled; a field that a
  Python `dict.get` may fail to find is an `Option`.  Every retained
  record carries a `parsed_timestamp` (the reader drops lines without a
  timestamp), modelled as epoch seconds (`Nat`).
* Python float arithmetic on durations and rates is modelled by exact
  rationals (`ℚ`).  For the percentile index computation
  `int(len(durations) * 0.95)` the float rounding never crosses an
  integer boundary (the exact product is either an integer, reproduced
  exactly, or at distance ≥ 1/100 from one), so the rational floor
  agrees with the Python value.
* `datetime.replace(minute=0, second=0, microsecond=0)` becomes
  truncation of epoch seconds to a multiple of 3600.
* Python dictionaries keyed by bucket hour, later iterated via
  `sorted(d.items())`, are modelled by sorting the deduplicated list of
  keys and aggregating per key.
-/

/-- One parsed structured-log record, as read back by
`MetricsExporter._read_structured_logs`.  Fields mirror the keys that
the aggregation functions in `src/monitoring/exporters.py` read from
`record.extra`; `timestamp` is the `parsed_timestamp` attached by the
reader (epoch seconds). -/
structure LogRecord where
  event_type : Option String
  timestamp : Nat
  status_code : Option Int
  duration_ms : Option ℚ
  user_id : Option String
  event_name : Option String
  context_success : Option Bool
deriving DecidableEq

/-- `_read_structured_logs(since)` keeps exactly the records whose
timestamp is not before `since` (the Python loop `continue`s on
`log_timestamp < since`). -/
def read_structured_logs (since : Nat) (recs : List LogRecord) : List LogRecord :=
  recs.filter (fun r => since ≤ r.timestamp)

/-- `req.get('record',{}).get('extra',{}).get('status_code', 0)`. -/
def status_of (r : LogRecord) : Int :=
  r.status_code.getD 0

/-- `req.get('record',{}).get('extra',{}).get('duration_ms', 0)`. -/
def dur_of (r : LogRecord) : ℚ :=
  r.duration_ms.getD 0

/-- Success predicate used by `_calculate_real_success_rate`:
`status_code < 400` with the missing value defaulted to `0`. -/
def is_success (r : LogRecord) : Bool :=
  status_of r < 400

/-- 4xx predicate used by `_calculate_real_error_rate`:
`400 <= status_code < 500`. -/
def is_4xx (r : LogRecord) : Bool :=
  400 ≤ status_of r ∧ status_of r < 500

/-- 5xx predicate used by `_calculate_real_error_rate`:
`status_code >= 500`. -/
def is_5xx (r : LogRecord) : Bool :=
  500 ≤ status_of r

/-- `MetricsExporter._calculate_real_success_rate`. -/
def calculate_real_success_rate (http_requests : List LogRecord) : ℚ :=
  if http_requests = [] then 1
  else ((http_requests.filter is_success).length : ℚ) / (http_requests.length : ℚ)

/-- `MetricsExporter._calculate_real_avg_response_time`. -/
def calculate_real_avg_response_time (http_requests : List LogRecord) : ℚ :=
  if http_requests = [] then 0
  else ((http_requests.map dur_of).sum) / (http_requests.length : ℚ)

/-- `MetricsExporter._count_real_active_users`: distinct truthy
`user_id` values (Python `if user_id:` skips both `None` and the empty
string). -/
def count_real_active_users (logs : List LogRecord) : Nat :=
  (((logs.filterMap (fun r => r.user_id)).filter (fun u => u ≠ "")).dedup).length

/-- `MetricsExporter._calculate_real_error_rate`. -/
def calculate_real_error_rate (http_requests : List LogRecord) (error_type : String) : ℚ :=
  if http_requests = [] then 0
  else if error_type = "4xx" then
    ((http_requests.filter is_4xx).length : ℚ) / (http_requests.length : ℚ)
  else if error_type = "5xx" then
    ((http_requests.filter is_5xx).length : ℚ) / (http_requests.length : ℚ)
  else 0

/-- `MetricsExporter._calculate_real_failed_logins_rate`:
`not context.get('success', True)` counts a record as a failed login. -/
def calculate_real_failed_logins_rate (business_events : List LogRecord) : ℚ :=
  let login_events := business_events.filter (fun e => e.event_name = some "user_login_attempt")
  if login_events = [] then 0
  else
    let failed := login_events.filter (fun e => !(e.context_success.getD true))
    ((failed.length : ℚ)) / (login_events.length : ℚ)

/-- The mapping returned by `MetricsExporter.export_current_metrics`.
`current_timestamp` is the query instant (code: `datetime.utcnow()`),
modelled as the same epoch-seconds clock that stamps the records. -/
structure CurrentMetrics where
  total_requests : Nat
  success_rate : ℚ
  avg_response_time : ℚ
  active_users : Nat
  error_rate_5xx : ℚ
  error_rate_4xx : ℚ
  failed_logins_rate : ℚ
  current_timestamp : Nat
  http_requests : List LogRecord
  data_source : String
deriving DecidableEq

/-- Event-type filter used repeatedly in `exporters.py`. -/
def events_of_type (t : String) (logs : List LogRecord) : List LogRecord :=
  logs.filter (fun r => r.event_type = some t)

/-- `MetricsExporter.export_current_metrics`, as a pure function of the
query instant `now` and the persisted records.  The code reads the log
with `since = datetime.now() - timedelta(hours=1)`; the unused
`error_events` local and the Prometheus text parse (merged into no
returned field) are omitted.  Note the `"http_requests"` key is bound
to `logs` — the whole windowed slice — not to the `http_request`
filter. -/
def export_current_metrics (now : Nat) (recs : List LogRecord) : CurrentMetrics :=
  let logs := read_structured_logs (now - 3600) recs
  let http_requests := events_of_type "http_request" logs
  let business_events := events_of_type "business_event" logs
  { total_requests := http_requests.length
    success_rate := calculate_real_success_rate http_requests
    avg_response_time := calculate_real_avg_response_time http_requests
    active_users := count_real_active_users logs
    error_rate_5xx := calculate_real_error_rate http_requests "5xx"
    error_rate_4xx := calculate_real_error_rate http_requests "4xx"
    failed_logins_rate := calculate_real_failed_logins_rate business_events
    current_timestamp := now
    http_requests := logs
    data_source := "real_logs_and_prometheus" }

/-- C1: the claimed success-rate formula, written from the spec's words
(count of records with status below 400 over the total). -/
def spec_success_rate (http_requests : List LogRecord) : ℚ :=
  if http_requests = [] then 1
  else ((http_requests.filter (fun r => status_of r < 400)).length : ℚ) / (http_requests.length : ℚ)

theorem filter_length_le_q (p : LogRecord → Bool) (l : List LogRecord) :
    ((l.filter p).length : ℚ) ≤ (l.length : ℚ) := by
  exact_mod_cast Nat.cast_le.mpr (List.length_filter_le p l)

/-- C1: `success_rate` equals (count with status < 400)/total — in
particular exactly 1 when the window holds no `http_request` record,
by the empty case of `spec_success_rate` — and always lies in [0,1]. -/
theorem c1_success_rate (now : Nat) (recs : List LogRecord) :
    let m := export_current_metrics now recs
    let reqs := events_of_type "http_request" (read_structured_logs (now - 3600) recs)
    m.success_rate = spec_success_rate reqs ∧
    spec_success_rate [] = 1 ∧
    0 ≤ m.success_rate ∧ m.success_rate ≤ 1 := by
  intro m reqs
  have hm : m.success_rate = calculate_real_success_rate reqs := rfl
  refine ⟨?_, rfl, ?_, ?_⟩
  · rw [hm]
    unfold calculate_real_success_rate spec_success_rate
    rfl
  · rw [hm]
    unfold calculate_real_success_rate
    by_cases h : reqs = []
    · simp [h]
    · simp only [h, if_false]
      positivity
  · rw [hm]
    unfold calculate_real_success_rate
    by_cases h : reqs = []
    · simp [h]
    · simp only [h, if_false]
      have hn : 0 < (reqs.length : ℚ) := by
        have : 0 < reqs.length := List.length_pos.mpr h
        exact_mod_cast this
      rw [div_le_one hn]
      exact filter_length_le_q _ _

/-- C9: the `"http_requests"` key of `current_metrics()` holds every
windowed record, of every event type, not only `http_request` ones. -/
theorem c9_http_requests_key_holds_all_records (now : Nat) (recs : List LogRecord) :
    (export_current_metrics now recs).http_requests =
      read_structured_logs (now - 3600) recs :=
  rfl

/-- Code-side failed-login predicate `not context.get('success', True)`
agrees with the spec-side predicate "`context.success` is false". -/
theorem failed_login_pred_eq (e : LogRecord) :
    (!(e.context_success.getD true)) = decide (e.context_success = some false) := by
  rcases e.context_success with _ | b
  · rfl
  · cases b <;> rfl

/-- C7: `failed_logins_rate` is, among `business_event` records with
`event_name = "user_login_attempt"`, the fraction whose
`context.success` is false (0 when there are none); and the concrete
two-event scenario yields 1/2. -/
theorem c7_failed_logins_rate :
    (∀ (now : Nat) (recs : List LogRecord),
      let m := export_current_metrics now recs
      let logins := (events_of_type "business_event"
          (read_structured_logs (now - 3600) recs)).filter
            (fun e => e.event_name = some "user_login_attempt")
      m.failed_logins_rate =
        if logins = [] then 0
        else ((logins.filter (fun e => e.context_success = some false)).length : ℚ) /
          (logins.length : ℚ)) ∧
    (export_current_metrics 7200
        [⟨some "business_event", 7100, none, none, none, some "user_login_attempt", some true⟩,
         ⟨some "business_event", 7150, none, none, none, some "user_login_attempt", some false⟩]
      ).failed_logins_rate = 1 / 2 := by
  constructor
  · intro now recs
    show calculate_real_failed_logins_rate _ = _
    unfold calculate_real_failed_logins_rate
    have hf : ∀ l : List LogRecord,
        l.filter (fun e => !(e.context_success.getD true)) =
          l.filter (fun e => e.context_success = some false) :=
      fun l => List.filter_congr (fun e _ => failed_login_pred_eq e)
    simp only [hf]
  · norm_num [export_current_metrics, calculate_real_failed_logins_rate, events_of_type,
      read_structured_logs, List.filter_cons, List.filter_nil]
    exact List.cons_ne_nil _ _

/-- `MonitoringConfig.SLOW_REQUEST_THRESHOLD` (seconds). -/
def SLOW_REQUEST_THRESHOLD : ℚ := 1

/-- The severity chosen by `StructuredLogger.log_request`
(`src/monitoring/logger.py`): the if/elif ladder over the status code
and the duration. -/
def log_request_level (status_code : Int) (duration : ℚ) : String :=
  if 500 ≤ status_code then "ERROR"
  else if 400 ≤ status_code then "WARNING"
  else if duration > SLOW_REQUEST_THRESHOLD then "WARNING"
  else "INFO"

/-- C8: the interceptor's severity classification — error-level iff
status ≥ 500; warning-level iff status < 500 and (status in 400–499 or
the duration exceeds the slow-request threshold); info-level
otherwise. -/
theorem c8_severity_classification (s : Int) (d : ℚ) :
    (log_request_level s d = "ERROR" ↔ 500 ≤ s) ∧
    (log_request_level s d = "WARNING" ↔
      s < 500 ∧ (400 ≤ s ∨ d > SLOW_REQUEST_THRESHOLD)) ∧
    (log_request_level s d = "INFO" ↔ s < 400 ∧ d ≤ SLOW_REQUEST_THRESHOLD) := by
  unfold log_request_level
  split_ifs with h1 h2 h3 <;> refine ⟨?_, ?_, ?_⟩ <;> simp_all <;> omega

/-- Partition: every record is counted by exactly one of the success /
4xx / 5xx predicates (the missing status code defaults to 0, a
"success"). -/
theorem status_partition (l : List LogRecord) :
    (l.filter is_success).length + (l.filter is_4xx).length +
      (l.filter is_5xx).length = l.length := by
  induction l with
  | nil => rfl
  | cons r t ih =>
    by_cases h1 : status_of r < 400
    · have e1 : is_success r = true := by simp [is_success, h1]
      have e2 : is_4xx r = false := by simp only [is_4xx]; simp; omega
      have e3 : is_5xx r = false := by simp only [is_5xx]; simp; omega
      simp [List.filter_cons, e1, e2, e3]
      omega
    · by_cases h2 : status_of r < 500
      · have e1 : is_success r = false := by simp only [is_success]; simp; omega
        have e2 : is_4xx r = true := by simp only [is_4xx]; simp; omega
        have e3 : is_5xx r = false := by simp only [is_5xx]; simp; omega
        simp [List.filter_cons, e1, e2, e3]
        omega
      · have e1 : is_success r = false := by simp only [is_success]; simp; omega
        have e2 : is_4xx r = false := by simp only [is_4xx]; simp; omega
        have e3 : is_5xx r = true := by simp only [is_5xx]; simp; omega
        simp [List.filter_cons, e1, e2, e3]
        omega

/-- C10: on a non-empty window the three rates sum to exactly 1, and a
record with a missing `status_code` is classified as a success (status
defaulted to 0) and as neither error class. -/
theorem c10_rates_sum_to_one (now : Nat) (recs : List LogRecord)
    (h : events_of_type "http_request" (read_structured_logs (now - 3600) recs) ≠ []) :
    (export_current_metrics now recs).success_rate +
      (export_current_metrics now recs).error_rate_4xx +
      (export_current_metrics now recs).error_rate_5xx = 1 ∧
    ∀ r : LogRecord, r.status_code = none →
      status_of r = 0 ∧ is_success r = true ∧ is_4xx r = false ∧ is_5xx r = false := by
  constructor
  · set reqs := events_of_type "http_request" (read_structured_logs (now - 3600) recs) with hreqs
    have hs : (export_current_metrics now recs).success_rate =
        ((reqs.filter is_success).length : ℚ) / (reqs.length : ℚ) := by
      show calculate_real_success_rate reqs = _
      unfold calculate_real_success_rate
      simp [h]
    have h4 : (export_current_metrics now recs).error_rate_4xx =
        ((reqs.filter is_4xx).length : ℚ) / (reqs.length : ℚ) := by
      show calculate_real_error_rate reqs "4xx" = _
      unfold calculate_real_error_rate
      simp [h]
    have h5 : (export_current_metrics now recs).error_rate_5xx =
        ((reqs.filter is_5xx).length : ℚ) / (reqs.length : ℚ) := by
      show calculate_real_error_rate reqs "5xx" = _
      unfold calculate_real_error_rate
      simp [h]
    have hn : (reqs.length : ℚ) ≠ 0 := by
      have : 0 < reqs.length := List.length_pos.mpr h
      exact_mod_cast Nat.pos_iff_ne_zero.mp this
    have hcast : ((reqs.filter is_success).length : ℚ) + ((reqs.filter is_4xx).length : ℚ) +
        ((reqs.filter is_5xx).length : ℚ) = (reqs.length : ℚ) := by
      exact_mod_cast status_partition reqs
    rw [hs, h4, h5, div_add_div_same, div_add_div_same, hcast]
    exact div_self hn
  · intro r hr
    refine ⟨by simp [status_of, hr], by simp [is_success, status_of, hr],
      by simp [is_4xx, status_of, hr], by simp [is_5xx, status_of, hr]⟩

/-- C10 witness: a two-record window (one record even lacking a status
code) on which the rates sum to 1. -/
theorem c10_rates_sum_to_one_witness :
    (events_of_type "http_request" (read_structured_logs (7200 - 3600)
        [⟨some "http_request", 7100, none, some 10, none, none, none⟩,
         ⟨some "http_request", 7150, some 404, some 20, none, none, none⟩]) ≠ []) ∧
    ((export_current_metrics 7200
        [⟨some "http_request", 7100, none, some 10, none, none, none⟩,
         ⟨some "http_request", 7150, some 404, some 20, none, none, none⟩]).success_rate +
      (export_current_metrics 7200
        [⟨some "http_request", 7100, none, some 10, none, none, none⟩,
         ⟨some "http_request", 7150, some 404, some 20, none, none, none⟩]).error_rate_4xx +
      (export_current_metrics 7200
        [⟨some "http_request", 7100, none, some 10, none, none, none⟩,
         ⟨some "http_request", 7150, some 404, some 20, none, none, none⟩]).error_rate_5xx = 1) :=
  ⟨by decide,
    (c10_rates_sum_to_one 7200
      [⟨some "http_request", 7100, none, some 10, none, none, none⟩,
       ⟨some "http_request", 7150, some 404, some 20, none, none, none⟩]
      (by decide)).1⟩

/-- C4 counterexample: the same unchanged (here: empty) store queried
at two instants gives two different mappings — `current_timestamp` is
the query clock, re-read on every call. -/
theorem c4_counterexample :
    export_current_metrics 3600 [] ≠ export_current_metrics 7200 [] := by
  intro h
  have ht := congrArg CurrentMetrics.current_timestamp h
  simp [export_current_metrics] at ht

/-- C4 (amended): two calls with no intervening writes agree on every
field except `current_timestamp`, provided both calls select the same
trailing-window slice of the log. -/
theorem c4_idempotent_except_timestamp (now1 now2 : Nat) (recs : List LogRecord)
    (h : read_structured_logs (now1 - 3600) recs = read_structured_logs (now2 - 3600) recs) :
    (export_current_metrics now1 recs).total_requests =
        (export_current_metrics now2 recs).total_requests ∧
    (export_current_metrics now1 recs).success_rate =
        (export_current_metrics now2 recs).success_rate ∧
    (export_current_metrics now1 recs).avg_response_time =
        (export_current_metrics now2 recs).avg_response_time ∧
    (export_current_metrics now1 recs).active_users =
        (export_current_metrics now2 recs).active_users ∧
    (export_current_metrics now1 recs).error_rate_5xx =
        (export_current_metrics now2 recs).error_rate_5xx ∧
    (export_current_metrics now1 recs).error_rate_4xx =
        (export_current_metrics now2 recs).error_rate_4xx ∧
    (export_current_metrics now1 recs).failed_logins_rate =
        (export_current_metrics now2 recs).failed_logins_rate ∧
    (export_current_metrics now1 recs).http_requests =
        (export_current_metrics now2 recs).http_requests ∧
    (export_current_metrics now1 recs).data_source =
        (export_current_metrics now2 recs).data_source := by
  refine ⟨?_, ?_, ?_, ?_, ?_, ?_, ?_, ?_, ?_⟩ <;> simp [export_current_metrics, h]

/-- Store used by the C4 witness: one request 50 seconds inside both
query windows. -/
def c4_store : List LogRecord :=
  [⟨some "http_request", 3650, some 200, none, none, none, none⟩]

/-- C4 witness: two queries 100 seconds apart whose windows select the
same slice agree on the non-timestamp fields. -/
theorem c4_idempotent_except_timestamp_witness :
    (read_structured_logs (3600 - 3600) c4_store =
      read_structured_logs (3700 - 3600) c4_store) ∧
    (export_current_metrics 3600 c4_store).total_requests =
      (export_current_metrics 3700 c4_store).total_requests :=
  ⟨by decide, (c4_idempotent_except_timestamp 3600 3700 c4_store (by decide)).1⟩

/-- Upper bucket boundaries with cumulative-style counts, plus the
implicit overflow bucket, of one histogram series.

Modelled from the spec: the Metric Registry's histogram kind
(`src/monitoring/metrics.py` builds `Histogram` series, but the
`observe` implementation lives in the third-party prometheus client
package, which is not part of `src/`).  Per the spec a histogram is "a
bounded set of fixed bucket boundaries plus a running sum and count"
and `observe(v)` rejects `v < 0` synchronously without corrupting the
series. -/
structure Histogram where
  buckets : List (ℚ × Nat)
  inf_count : Nat
  sum : ℚ
  count : Nat
deriving DecidableEq

/-- Increment the first bucket whose upper bound is ≥ `v`; `none` when
`v` lies above every bound (the overflow bucket takes it). -/
def bump_buckets : List (ℚ × Nat) → ℚ → Option (List (ℚ × Nat))
  | [], _ => none
  | (b, c) :: rest, v =>
    if v ≤ b then some ((b, c + 1) :: rest)
    else (bump_buckets rest v).map (fun tail => (b, c) :: tail)

/-- Modelled from the spec: `observe(value)` — rejected with a
validation error when `value` is negative (prior state returned
untouched), otherwise the matching bucket, the running sum and the
count are updated. -/
def Histogram.observe (h : Histogram) (v : ℚ) : Option String × Histogram :=
  if v < 0 then (some "ValidationError: negative observation", h)
  else
    match bump_buckets h.buckets v with
    | some bs => (none, { h with buckets := bs, sum := h.sum + v, count := h.count + 1 })
    | none => (none, { h with inf_count := h.inf_count + 1, sum := h.sum + v, count := h.count + 1 })

/-- C3: observing any negative value fails synchronously and leaves the
histogram's bucket counts, running sum and count unchanged. -/
theorem c3_observe_rejects_negative (h : Histogram) (v : ℚ) (hv : v < 0) :
    (h.observe v).1.isSome = true ∧ (h.observe v).2 = h := by
  unfold Histogram.observe
  rw [if_pos hv]
  exact ⟨rfl, rfl⟩

/-- C3 witness: observing −1 on a concrete two-bucket histogram is
rejected and the state is returned unchanged. -/
theorem c3_observe_rejects_negative_witness :
    ((-1 : ℚ) < 0) ∧
    ((Histogram.observe ⟨[(1, 2), (5, 0)], 1, 7, 3⟩ (-1)).1.isSome = true ∧
      (Histogram.observe ⟨[(1, 2), (5, 0)], 1, 7, 3⟩ (-1)).2 = ⟨[(1, 2), (5, 0)], 1, 7, 3⟩) :=
  ⟨by norm_num, c3_observe_rejects_negative ⟨[(1, 2), (5, 0)], 1, 7, 3⟩ (-1) (by norm_num)⟩

/-- `timestamp.replace(minute=0, second=0, microsecond=0)`: epoch
seconds truncated to the containing hour. -/
def hour_key (t : Nat) : Nat :=
  t / 3600 * 3600

/-- One element of the `http_requests_timeline` list built by
`MetricsExporter._get_real_requests_timeline`. -/
structure TimelineEntry where
  timestamp : Nat
  requests_count : Nat
  avg_response_time : ℚ
deriving DecidableEq

/-- The `sorted(hourly_data.items())` iteration order: the distinct
bucket hours of the requests, ascending. -/
def bucket_hours (reqs : List LogRecord) : List Nat :=
  List.insertionSort (· ≤ ·) ((reqs.map (fun r => hour_key r.timestamp)).dedup)

/-- `MetricsExporter._get_real_requests_timeline`: per distinct bucket
hour, the request count and the accumulated duration divided by the
count (the Python defaultdict accumulation, re-expressed per key). -/
def get_real_requests_timeline (logs : List LogRecord) : List TimelineEntry :=
  let reqs := events_of_type "http_request" logs
  (bucket_hours reqs).map (fun h =>
    let bucket := reqs.filter (fun r => hour_key r.timestamp = h)
    { timestamp := h
      requests_count := bucket.length
      avg_response_time :=
        if bucket.length > 0 then (bucket.map dur_of).sum / (bucket.length : ℚ) else 0 })

/-- The `http_requests_timeline` component of
`MetricsExporter.export_historical_data(hours)` (which reads the log
with `since = utcnow - hours`). -/
def export_historical_requests_timeline (now hours : Nat) (recs : List LogRecord) :
    List TimelineEntry :=
  get_real_requests_timeline (read_structured_logs (now - hours * 3600) recs)

theorem mem_bucket_hours {reqs : List LogRecord} {h : Nat} :
    h ∈ bucket_hours reqs ↔ ∃ r ∈ reqs, hour_key r.timestamp = h := by
  unfold bucket_hours
  rw [List.mem_insertionSort, List.mem_dedup, List.mem_map]

theorem bucket_hours_sorted (reqs : List LogRecord) :
    (bucket_hours reqs).Sorted (· < ·) := by
  have hs : (bucket_hours reqs).Sorted (· ≤ ·) :=
    List.sorted_insertionSort (· ≤ ·) _
  have hn : (bucket_hours reqs).Nodup :=
    ((List.perm_insertionSort (· ≤ ·) _).nodup_iff).mpr (List.nodup_dedup _)
  exact hs.lt_of_le hn

theorem bucket_hours_aligned (reqs : List LogRecord) :
    ∀ h ∈ bucket_hours reqs, h % 3600 = 0 := by
  intro h hh
  rcases mem_bucket_hours.mp hh with ⟨r, _, he⟩
  rw [← he]
  unfold hour_key
  omega

/-- C5: the request timeline buckets `http_request` records by the hour
truncation of their timestamp; every emitted bucket is hour-aligned and
non-empty, carries the bucket's record count and mean duration, buckets
are strictly ascending and pairwise at least an hour apart (hence
non-overlapping), and every windowed request's hour appears. -/
theorem c5_requests_timeline (now hours : Nat) (recs : List LogRecord) :
    let reqs := events_of_type "http_request" (read_structured_logs (now - hours * 3600) recs)
    let tl := export_historical_requests_timeline now hours recs
    (tl.map (fun e => e.timestamp)).Pairwise (fun a b => a + 3600 ≤ b) ∧
    (∀ e ∈ tl, e.timestamp % 3600 = 0 ∧
      0 < e.requests_count ∧
      e.requests_count = (reqs.filter (fun r => hour_key r.timestamp = e.timestamp)).length ∧
      e.avg_response_time =
        ((reqs.filter (fun r => hour_key r.timestamp = e.timestamp)).map dur_of).sum /
          ((reqs.filter (fun r => hour_key r.timestamp = e.timestamp)).length : ℚ)) ∧
    (∀ r ∈ reqs, ∃ e ∈ tl, e.timestamp = hour_key r.timestamp) := by
  intro reqs tl
  have htl : tl = (bucket_hours reqs).map (fun h =>
      ({ timestamp := h
         requests_count := (reqs.filter (fun r => hour_key r.timestamp = h)).length
         avg_response_time :=
           if (reqs.filter (fun r => hour_key r.timestamp = h)).length > 0 then
             ((reqs.filter (fun r => hour_key r.timestamp = h)).map dur_of).sum /
               ((reqs.filter (fun r => hour_key r.timestamp = h)).length : ℚ)
           else 0 } : TimelineEntry)) := rfl
  have hmk : ∀ (keys : List Nat) (f : Nat → TimelineEntry),
      (∀ h, (f h).timestamp = h) → (keys.map f).map (fun e => e.timestamp) = keys := by
    intro keys f hf
    induction keys with
    | nil => rfl
    | cons a t ih => simp [hf, ih]
  have hts : tl.map (fun e => e.timestamp) = bucket_hours reqs := by
    rw [htl]
    exact hmk _ _ (fun h => rfl)
  refine ⟨?_, ?_, ?_⟩
  · rw [hts]
    have hp : (bucket_hours reqs).Pairwise (· < ·) := bucket_hours_sorted reqs
    exact hp.imp_of_mem (fun ha hb hlt => by
      have h1 := bucket_hours_aligned reqs _ ha
      have h2 := bucket_hours_aligned reqs _ hb
      omega)
  · intro e he
    rw [htl] at he
    rcases List.mem_map.mp he with ⟨h, hh, rfl⟩
    have hal := bucket_hours_aligned reqs h hh
    rcases mem_bucket_hours.mp hh with ⟨r, hr, hkey⟩
    have hmem : r ∈ reqs.filter (fun x => hour_key x.timestamp = h) :=
      List.mem_filter.mpr ⟨hr, by simp [hkey]⟩
    have hpos : 0 < (reqs.filter (fun x => hour_key x.timestamp = h)).length :=
      List.length_pos.mpr (fun hnil => by rw [hnil] at hmem; exact (List.not_mem_nil r) hmem)
    exact ⟨hal, hpos, rfl, if_pos hpos⟩
  · intro r hr
    rw [htl]
    exact ⟨_, List.mem_map_of_mem _ (mem_bucket_hours.mpr ⟨r, hr, rfl⟩), rfl⟩

/-- Store used by the C5/C2 witnesses: three requests across two hours
and one business event. -/
def timeline_store : List LogRecord :=
  [⟨some "http_request", 100, some 200, some 10, none, none, none⟩,
   ⟨some "http_request", 200, some 404, some 30, none, none, none⟩,
   ⟨some "http_request", 3700, some 200, some 20, none, none, none⟩,
   ⟨some "business_event", 150, none, none, none, some "user_login_attempt", some true⟩]

/-- C5 witness: the timeline properties instantiated on a concrete
two-bucket store. -/
theorem c5_requests_timeline_witness :
    let reqs := events_of_type "http_request"
      (read_structured_logs (90000 - 24 * 3600) timeline_store)
    let tl := export_historical_requests_timeline 90000 24 timeline_store
    (tl.map (fun e => e.timestamp)).Pairwise (fun a b => a + 3600 ≤ b) ∧
    (∀ e ∈ tl, e.timestamp % 3600 = 0 ∧
      0 < e.requests_count ∧
      e.requests_count = (reqs.filter (fun r => hour_key r.timestamp = e.timestamp)).length ∧
      e.avg_response_time =
        ((reqs.filter (fun r => hour_key r.timestamp = e.timestamp)).map dur_of).sum /
          ((reqs.filter (fun r => hour_key r.timestamp = e.timestamp)).length : ℚ)) ∧
    (∀ r ∈ reqs, ∃ e ∈ tl, e.timestamp = hour_key r.timestamp) :=
  c5_requests_timeline 90000 24 timeline_store

/-- One element of the `response_times_timeline` list built by
`MetricsExporter._get_real_response_times_timeline`. -/
structure PercentileEntry where
  timestamp : Nat
  p50 : ℚ
  p95 : ℚ
  p99 : ℚ
deriving DecidableEq

/-- `int(len(durations) * q)` for a non-negative factor `q`: the floor
of the exact product (the float rounding never crosses an integer
boundary, see the header note). -/
def pct_index (n : Nat) (q : ℚ) : Nat :=
  (Int.floor ((n : ℚ) * q)).toNat

/-- `MetricsExporter._get_real_response_times_timeline`: per distinct
bucket hour, sort the bucket's durations ascending and report
`durations[idx] if idx < len(durations) else 0` at the three computed
indices; the `if durations:` guard becomes the `filterMap` `none`
case. -/
def get_real_response_times_timeline (logs : List LogRecord) : List PercentileEntry :=
  let reqs := events_of_type "http_request" logs
  (bucket_hours reqs).filterMap (fun h =>
    let ds := List.insertionSort (· ≤ ·)
      ((reqs.filter (fun r => hour_key r.timestamp = h)).map dur_of)
    if ds = [] then none
    else some
      { timestamp := h
        p50 := ds.getD (pct_index ds.length (0.5 : ℚ)) 0
        p95 := ds.getD (pct_index ds.length (0.95 : ℚ)) 0
        p99 := ds.getD (pct_index ds.length (0.99 : ℚ)) 0 })

/-- The `response_times_timeline` component of
`MetricsExporter.export_historical_data(hours)`. -/
def export_historical_response_times_timeline (now hours : Nat) (recs : List LogRecord) :
    List PercentileEntry :=
  get_real_response_times_timeline (read_structured_logs (now - hours * 3600) recs)

/-- C2 spec-side nearest-rank estimator, written from the spec's
words: the value at index ⌊q·n⌋ of the ascending-sorted sample, and 0
when that index would exceed n−1 (no interpolation). -/
def spec_nearest_rank (ds : List ℚ) (q : ℚ) : ℚ :=
  if (Int.floor (q * (ds.length : ℚ))).toNat < ds.length then
    (List.insertionSort (· ≤ ·) ds).getD ((Int.floor (q * (ds.length : ℚ))).toNat) 0
  else 0

/-- C2 spec-side latency timeline: per non-empty hour bucket, the
spec's three nearest-rank percentiles of the bucket durations. -/
def spec_latency_timeline (logs : List LogRecord) : List PercentileEntry :=
  let reqs := events_of_type "http_request" logs
  (bucket_hours reqs).filterMap (fun h =>
    let raw := (reqs.filter (fun r => hour_key r.timestamp = h)).map dur_of
    if raw = [] then none
    else some
      { timestamp := h
        p50 := spec_nearest_rank raw (0.5 : ℚ)
        p95 := spec_nearest_rank raw (0.95 : ℚ)
        p99 := spec_nearest_rank raw (0.99 : ℚ) })

theorem nearest_rank_eq (ds : List ℚ) (q : ℚ) :
    (List.insertionSort (· ≤ ·) ds).getD
        (pct_index (List.insertionSort (· ≤ ·) ds).length q) 0 =
      spec_nearest_rank ds q := by
  unfold spec_nearest_rank pct_index
  rw [List.length_insertionSort, mul_comm]
  by_cases hi : (Int.floor (q * (ds.length : ℚ))).toNat < ds.length
  · rw [if_pos hi]
  · rw [if_neg hi]
    exact List.getD_eq_default _ _
      (by rw [List.length_insertionSort]; omega)

theorem insertionSort_eq_nil_iff (ds : List ℚ) :
    List.insertionSort (· ≤ ·) ds = [] ↔ ds = [] := by
  constructor
  · intro hz
    exact ((hz ▸ List.perm_insertionSort (· ≤ ·) ds).symm).eq_nil
  · intro hz
    rw [hz]
    rfl

/-- C2: the latency timeline is exactly the spec's nearest-rank
timeline — per hour bucket the sorted durations indexed at ⌊0.50·n⌋,
⌊0.95·n⌋, ⌊0.99·n⌋ with 0 for an out-of-range index — and on the
concrete single-bucket durations [10,20,30,40,50] it reports p50 = 30
and p95 = 50. -/
theorem c2_nearest_rank_percentiles :
    (∀ (now hours : Nat) (recs : List LogRecord),
      export_historical_response_times_timeline now hours recs =
        spec_latency_timeline (read_structured_logs (now - hours * 3600) recs)) ∧
    (get_real_response_times_timeline
        [⟨some "http_request", 10, some 200, some 30, none, none, none⟩,
         ⟨some "http_request", 20, some 200, some 10, none, none, none⟩,
         ⟨some "http_request", 30, some 200, some 50, none, none, none⟩,
         ⟨some "http_request", 40, some 200, some 20, none, none, none⟩,
         ⟨some "http_request", 50, some 200, some 40, none, none, none⟩]).map
        (fun e => (e.p50, e.p95)) = [(30, 50)] := by
  constructor
  · intro now hours recs
    unfold export_historical_response_times_timeline
    unfold get_real_response_times_timeline spec_latency_timeline
    refine List.filterMap_congr (fun h _ => ?_)
    by_cases hraw :
        ((events_of_type "http_request" (read_structured_logs (now - hours * 3600) recs)).filter
          (fun r => hour_key r.timestamp = h)).map dur_of = []
    · rw [if_pos ((insertionSort_eq_nil_iff _).mpr hraw), if_pos hraw]
    · rw [if_neg (fun hz => hraw ((insertionSort_eq_nil_iff _).mp hz)), if_neg hraw]
      rw [nearest_rank_eq, nearest_rank_eq, nearest_rank_eq]
  · have hb : bucket_hours (events_of_type "http_request"
        [⟨some "http_request", 10, some 200, some 30, none, none, none⟩,
         ⟨some "http_request", 20, some 200, some 10, none, none, none⟩,
         ⟨some "http_request", 30, some 200, some 50, none, none, none⟩,
         ⟨some "http_request", 40, some 200, some 20, none, none, none⟩,
         ⟨some "http_request", 50, some 200, some 40, none, none, none⟩]) = [0] := by
      decide
    have hds : List.insertionSort (· ≤ ·)
        (((events_of_type "http_request"
            [⟨some "http_request", 10, some 200, some 30, none, none, none⟩,
             ⟨some "http_request", 20, some 200, some 10, none, none, none⟩,
             ⟨some "http_request", 30, some 200, some 50, none, none, none⟩,
             ⟨some "http_request", 40, some 200, some 20, none, none, none⟩,
             ⟨some "http_request", 50, some 200, some 40, none, none, none⟩]).filter
          (fun r => hour_key r.timestamp = 0)).map dur_of) =
        ([10, 20, 30, 40, 50] : List ℚ) := by
      decide
    have h50 : pct_index 5 (0.5 : ℚ) = 2 := by
      have hf : Int.floor (((5 : Nat) : ℚ) * (0.5 : ℚ)) = 2 := by
        apply Int.floor_eq_iff.mpr
        norm_num
      unfold pct_index
      rw [hf]
      rfl
    have h95 : pct_index 5 (0.95 : ℚ) = 4 := by
      have hf : Int.floor (((5 : Nat) : ℚ) * (0.95 : ℚ)) = 4 := by
        apply Int.floor_eq_iff.mpr
        norm_num
      unfold pct_index
      rw [hf]
      rfl
    have h99 : pct_index 5 (0.99 : ℚ) = 4 := by
      have hf : Int.floor (((5 : Nat) : ℚ) * (0.99 : ℚ)) = 4 := by
        apply Int.floor_eq_iff.mpr
        norm_num
      unfold pct_index
      rw [hf]
      rfl
    simp only [get_real_response_times_timeline, hb, List.filterMap_cons, List.filterMap_nil,
      hds]
    simp [h50, h95, h99]

/-- Python `a.startswith(b)` over the underlying character lists (a
structural, kernel-computable re-implementation; `String.startsWith`
is defined by well-founded recursion and does not reduce). -/
def starts_chars : List Char → List Char → Bool
  | _, [] => true
  | [], _ :: _ => false
  | a :: s, b :: t => a = b && starts_chars s t

/-- Python `a.startswith(b)`. -/
def py_starts_with (s pat : String) : Bool :=
  starts_chars s.data pat.data

/-- Helper of `py_split`: split on runs of whitespace, accumulator
holds the current word reversed. -/
def split_ws : List Char → List Char → List String
  | [], acc => if acc = [] then [] else [String.mk acc.reverse]
  | c :: rest, acc =>
    if c.isWhitespace then
      if acc = [] then split_ws rest []
      else String.mk acc.reverse :: split_ws rest []
    else split_ws rest (c :: acc)

/-- Python `s.split()` with no argument: words separated by whitespace
runs, no empty components. -/
def py_split (s : String) : List String :=
  split_ws s.data []

/-- Python `not line.strip()`: the line is entirely whitespace. -/
def is_blank (line : String) : Bool :=
  line.data.all (fun c => c.isWhitespace)

/-- The `categories` dict of
`MetricsCollector._format_metrics_by_category` (iteration order =
declaration order). -/
def categories : List (String × String) :=
  [("http_", "HTTP METRICS"),
   ("system_", "SYSTEM METRICS"),
   ("db_", "DATABASE METRICS"),
   ("books_", "BUSINESS METRICS (Books)"),
   ("ml_", "MACHINE LEARNING METRICS"),
   ("user_", "USER METRICS")]

/-- The `section_order` list of `_format_metrics_by_category`. -/
def section_order : List String :=
  ["http_", "system_", "db_", "books_", "ml_", "user_", "other"]

/-- `line.split()[2]`: the metric name carried by a `# HELP` line. -/
def help_metric_name (line : String) : String :=
  (py_split line).getD 2 ""

/-- The inner loop over `categories.items()`: the section key chosen
for a metric name — the first declared name-start that matches, else
`"other"`. -/
def section_for_name (name : String) : String :=
  match categories.find? (fun c => py_starts_with name c.1) with
  | some c => c.1
  | none => "other"

/-- The line scan of `_format_metrics_by_category`: skip blank lines,
switch the current section on each `# HELP` line, and tag every kept
line with the section it is filed under (the
`categorized_metrics[current_section].append(line)` step). -/
def assign_sections : List String → String → List (String × String)
  | [], _ => []
  | line :: rest, cur =>
    if is_blank line then assign_sections rest cur
    else
      let cur2 := if py_starts_with line "# HELP" then
          section_for_name (help_metric_name line)
        else cur
      (cur2, line) :: assign_sections rest cur2

/-- The dash separator line built by the method. -/
def dash_line : String :=
  "# " ++ String.mk (List.replicate 50 '-')

/-- The fixed four-line header emitted before any category. -/
def header_lines : List String :=
  [String.join (List.replicate 40 "# ="), "# FASTAPI MONITORING METRICS",
   String.join (List.replicate 40 "# ="), ""]

/-- The banner block emitted before a non-empty section ("OTHER
METRICS" for the catch-all key). -/
def banner_lines (s : String) : List String :=
  match categories.find? (fun c => c.1 = s) with
  | some c => [dash_line, "# " ++ c.2, dash_line]
  | none => if s = "other" then [dash_line, "# OTHER METRICS", dash_line] else []

/-- One iteration of the `for section in section_order` output loop:
nothing when the section collected no lines, else its banner, a blank
line, the collected lines in encounter order and a closing blank. -/
def section_block (assigned : List (String × String)) (s : String) : List String :=
  let ls := (assigned.filter (fun p => p.1 = s)).map (fun p => p.2)
  if ls = [] then []
  else banner_lines s ++ [""] ++ ls ++ [""]

/-- `MetricsCollector._format_metrics_by_category` at the level of
output lines; the method returns `'\n'.join` of exactly this list. -/
def format_metrics_by_category_lines (lines : List String) : List String :=
  header_lines ++ section_order.flatMap (section_block (assign_sections lines "other"))

/-- `MetricsCollector._format_metrics_by_category` (string level:
`raw_metrics.strip().split('\n')` in, joined lines out). -/
def format_metrics_by_category (raw : String) : String :=
  String.intercalate "\n" (format_metrics_by_category_lines ((raw.trim).splitOn "\n"))

/-- One metric family of the raw exposition: the `# HELP` header's
name and help text, then its remaining lines (`# TYPE` and samples). -/
structure MetricFamily where
  name : String
  help_text : String
  body : List String
deriving DecidableEq

/-- The `# HELP` line `generate_latest` emits for a family. -/
def family_help_line (f : MetricFamily) : String :=
  "# HELP " ++ f.name ++ " " ++ f.help_text

/-- All exposition lines of a family. -/
def family_lines (f : MetricFamily) : List String :=
  family_help_line f :: f.body

/-- The raw exposition produced by a sequence of families in
registration order. -/
def render_families (fs : List MetricFamily) : List String :=
  fs.flatMap family_lines

/-- The category a family belongs to, determined by its name. -/
def family_section (f : MetricFamily) : String :=
  section_for_name f.name

/-- A well-formed rendered family: the help line is recognized and
parses back to the family's name, and body lines are non-blank
non-`# HELP` lines. -/
def wf_family (f : MetricFamily) : Prop :=
  py_starts_with (family_help_line f) "# HELP" = true ∧
  is_blank (family_help_line f) = false ∧
  help_metric_name (family_help_line f) = f.name ∧
  ∀ l ∈ f.body, is_blank l = false ∧ py_starts_with l "# HELP" = false

instance (f : MetricFamily) : Decidable (wf_family f) := by
  unfold wf_family
  exact inferInstance

/-- C6 spec-side output chunk for one section: the families of that
category in encounter order under the section banner, nothing when the
category is empty. -/
def spec_section_chunk (fs : List MetricFamily) (s : String) : List String :=
  let gs := fs.filter (fun f => family_section f = s)
  if gs = [] then []
  else banner_lines s ++ [""] ++ gs.flatMap family_lines ++ [""]

theorem assign_sections_body (rest : List String) (cur : String) :
    ∀ (body : List String),
      (∀ l ∈ body, is_blank l = false ∧ py_starts_with l "# HELP" = false) →
      assign_sections (body ++ rest) cur =
        body.map (fun l => (cur, l)) ++ assign_sections rest cur := by
  intro body
  induction body with
  | nil => intro _; rfl
  | cons l t ih =>
    intro hb
    obtain ⟨hl1, hl2⟩ := hb l (List.mem_cons_self l t)
    rw [List.cons_append]
    rw [show assign_sections (l :: (t ++ rest)) cur =
        (cur, l) :: assign_sections (t ++ rest) cur from by
      simp [assign_sections, hl1, hl2]]
    rw [ih (fun x hx => hb x (List.mem_cons_of_mem l hx))]
    rfl

theorem assign_sections_family (f : MetricFamily) (rest : List String) (cur : String)
    (hf : wf_family f) :
    assign_sections (family_lines f ++ rest) cur =
      (family_lines f).map (fun l => (family_section f, l)) ++
        assign_sections rest (family_section f) := by
  obtain ⟨h1, h2, h3, h4⟩ := hf
  rw [family_lines, List.cons_append]
  rw [show assign_sections (family_help_line f :: (f.body ++ rest)) cur =
      (family_section f, family_help_line f) ::
        assign_sections (f.body ++ rest) (family_section f) from by
    simp [assign_sections, h1, h2, h3, family_section]]
  rw [assign_sections_body rest (family_section f) f.body h4]
  rfl

theorem assign_sections_render :
    ∀ (fs : List MetricFamily) (cur : String), (∀ f ∈ fs, wf_family f) →
      assign_sections (render_families fs) cur =
        fs.flatMap (fun f => (family_lines f).map (fun l => (family_section f, l))) := by
  intro fs
  induction fs with
  | nil => intro _ _; rfl
  | cons f t ih =>
    intro cur hwf
    rw [render_families, List.flatMap_cons]
    rw [assign_sections_family f _ cur (hwf f (List.mem_cons_self f t))]
    rw [show (t.flatMap family_lines) = render_families t from rfl]
    rw [ih _ (fun x hx => hwf x (List.mem_cons_of_mem f hx))]
    rw [List.flatMap_cons]

theorem filter_fst_map_const (sec s : String) (ls : List String) :
    ((ls.map (fun l => (sec, l))).filter (fun p => p.1 = s)).map (fun p => p.2) =
      if sec = s then ls else [] := by
  induction ls with
  | nil => simp
  | cons a t ih =>
    by_cases h : sec = s
    · subst h
      simp [List.filter_cons, ih]
    · simp [List.filter_cons, h, ih]

theorem lines_for_flatmap (fs : List MetricFamily) (s : String) :
    ((fs.flatMap (fun f => (family_lines f).map (fun l => (family_section f, l)))).filter
        (fun p => p.1 = s)).map (fun p => p.2) =
      (fs.filter (fun f => family_section f = s)).flatMap family_lines := by
  induction fs with
  | nil => rfl
  | cons f t ih =>
    rw [List.flatMap_cons, List.filter_append, List.map_append, ih, List.filter_cons]
    rw [filter_fst_map_const]
    by_cases h : family_section f = s
    · simp [h, List.flatMap_cons]
    · simp [h]

theorem flatmap_family_lines_ne_nil {gs : List MetricFamily} (h : gs ≠ []) :
    gs.flatMap family_lines ≠ [] := by
  cases gs with
  | nil => exact absurd rfl h
  | cons f t => simp [List.flatMap_cons, family_lines]

/-- C6: on any well-formed raw exposition, the categorized text lists
the categories in the fixed declared order (http, system, db, books,
ml, user, other); every family whose name starts with a declared
category name-start appears under exactly that category's banner, and
families within a category keep their encounter (registration) order —
independent of the input order of the families. -/
theorem c6_categorized_exposition (fs : List MetricFamily)
    (hwf : ∀ f ∈ fs, wf_family f) :
    format_metrics_by_category_lines (render_families fs) =
      header_lines ++ section_order.flatMap (spec_section_chunk fs) := by
  unfold format_metrics_by_category_lines
  have hlines : ∀ s : String,
      ((assign_sections (render_families fs) "other").filter (fun p => p.1 = s)).map
        (fun p => p.2) =
      (fs.filter (fun f => family_section f = s)).flatMap family_lines := by
    intro s
    rw [assign_sections_render fs "other" hwf]
    exact lines_for_flatmap fs s
  have hsec : ∀ s : String,
      section_block (assign_sections (render_families fs) "other") s =
        spec_section_chunk fs s := by
    intro s
    simp only [section_block, spec_section_chunk]
    rw [hlines s]
    by_cases hg : fs.filter (fun f => family_section f = s) = []
    · simp [hg]
    · rw [if_neg (flatmap_family_lines_ne_nil hg), if_neg hg]
  rw [funext hsec]

/-- Families used by the C6 witness, deliberately registered with the
`user_` family before the `http_` family. -/
def c6_families : List MetricFamily :=
  [⟨"user_logins_total", "Total user logins",
    ["# TYPE user_logins_total counter", "user_logins_total 3.0"]⟩,
   ⟨"http_requests_total", "Total HTTP requests",
    ["http_requests_total 1.0"]⟩]

/-- C6 witness: the categorized exposition of the two concrete
families, registered in reverse category order, still comes out in the
declared category order. -/
theorem c6_categorized_exposition_witness :
    (∀ f ∈ c6_families, wf_family f) ∧
    format_metrics_by_category_lines (render_families c6_families) =
      header_lines ++ section_order.flatMap (spec_section_chunk c6_families) :=
  ⟨by decide, c6_categorized_exposition c6_families (by decide)⟩
